import Mathlib

/-!
Verification of the ouster_viz rendering core (src/ouster_viz/src/common.h).

The file shallowly embeds the GLSL shader programs and the two OpenGL helper
functions of common.h. GLSL float arithmetic is modelled over the rationals;
vec2, vec3, vec4 and mat4 become structures of rationals, texture sampling with
GL_NEAREST filtering and GL_CLAMP_TO_EDGE wrapping (the fixed policy installed
by load_texture) becomes a clamped floor-index lookup, and the two host-side
helpers become pure functions that also return the list of GL calls they issue.
-/

namespace OusterViz

/-- GLSL vec2 over the rationals. -/
structure Vec2 where
  x : ℚ
  y : ℚ
deriving DecidableEq

/-- GLSL vec3 over the rationals. -/
structure Vec3 where
  x : ℚ
  y : ℚ
  z : ℚ
deriving DecidableEq

/-- GLSL vec4 over the rationals. -/
structure Vec4 where
  x : ℚ
  y : ℚ
  z : ℚ
  w : ℚ
deriving DecidableEq

/-- Componentwise sum of two vec3 values. -/
def Vec3.add (a b : Vec3) : Vec3 :=
  ⟨a.x + b.x, a.y + b.y, a.z + b.z⟩

/-- GLSL vec3 times scalar, componentwise. -/
def Vec3.smul (v : Vec3) (s : ℚ) : Vec3 :=
  ⟨v.x * s, v.y * s, v.z * s⟩

/-- GLSL vec3 divided by a scalar, componentwise. -/
def Vec3.divQ (v : Vec3) (s : ℚ) : Vec3 :=
  ⟨v.x / s, v.y / s, v.z / s⟩

/-- The rgb swizzle of a vec4. -/
def Vec4.rgb (v : Vec4) : Vec3 :=
  ⟨v.x, v.y, v.z⟩

/-- Build a vec4 from a vec3 and a fourth component, as in vec4(v, w). -/
def vec4 (v : Vec3) (w : ℚ) : Vec4 :=
  ⟨v.x, v.y, v.z, w⟩

/-- GLSL mat4 in column-major order: c0, c1, c2, c3 are the four columns,
exactly as the mat4 constructor receives them. -/
structure Mat4 where
  c0 : Vec4
  c1 : Vec4
  c2 : Vec4
  c3 : Vec4
deriving DecidableEq

/-- Matrix-vector product of a column-major mat4 with a vec4. -/
def Mat4.mulVec (M : Mat4) (v : Vec4) : Vec4 :=
  ⟨M.c0.x * v.x + M.c1.x * v.y + M.c2.x * v.z + M.c3.x * v.w,
   M.c0.y * v.x + M.c1.y * v.y + M.c2.y * v.z + M.c3.y * v.w,
   M.c0.z * v.x + M.c1.z * v.y + M.c2.z * v.z + M.c3.z * v.w,
   M.c0.w * v.x + M.c1.w * v.y + M.c2.w * v.z + M.c3.w * v.w⟩

/-- Matrix-matrix product: column j of A * B is A applied to column j of B. -/
def Mat4.mul (A B : Mat4) : Mat4 :=
  ⟨A.mulVec B.c0, A.mulVec B.c1, A.mulVec B.c2, A.mulVec B.c3⟩

/-- The identity mat4. -/
def Mat4.identity : Mat4 :=
  ⟨⟨1, 0, 0, 0⟩, ⟨0, 1, 0, 0⟩, ⟨0, 0, 1, 0⟩, ⟨0, 0, 0, 1⟩⟩

/-! ## Pose-texture sampling

load_texture installs GL_NEAREST filtering and GL_CLAMP_TO_EDGE wrapping on
every texture, so a GLSL texture(tex, uv) lookup on a size-n axis at
coordinate c reads the texel of index floor(c * n), clamped into [0, n-1].
The transformation texture of the point vertex shader is W x 4; rows are
indexed by the fixed coordinates 0.125, 0.375, 0.625, 0.875 (common.h
lines 181-186), columns by the normalized trans_index attribute. -/

/-- Nearest-texel row index for the height-4 pose texture at vertical
coordinate v: floor(v * 4) clamped into [0, 3]. -/
def rowIdx (v : ℚ) : ℕ :=
  min 3 (Int.toNat ⌊v * 4⌋)

/-- Nearest-texel column index for a width-w texture at horizontal
coordinate u: floor(u * w) clamped into [0, w-1]. -/
def colIdx (w : ℕ) (u : ℚ) : ℕ :=
  min (w - 1) (Int.toNat ⌊u * (w : ℚ)⌋)

/-- GLSL mat4 constructor call of common.h lines 187-192: the four argument
quadruples are the four columns, so the upper-left 3x3 block has columns
r0.xyz, r1.xyz, r2.xyz, the last column is t.xyz extended by 1, and the
bottom row is 0, 0, 0, 1. -/
def decodePose (r0 r1 r2 t : Vec3) : Mat4 :=
  ⟨⟨r0.x, r0.y, r0.z, 0⟩,
   ⟨r1.x, r1.y, r1.z, 0⟩,
   ⟨r2.x, r2.y, r2.z, 0⟩,
   ⟨t.x, t.y, t.z, 1⟩⟩

/-- Decode one column of the pose texture (a map from row index to the RGB
texel) by sampling it at the four fixed row centers, common.h lines 183-192. -/
def decodeColumn (col : ℕ → Vec3) : Mat4 :=
  decodePose (col (rowIdx 0.125)) (col (rowIdx 0.375))
    (col (rowIdx 0.625)) (col (rowIdx 0.875))

/-- Modelled from the spec: the Pose Set texture writer is not part of
src/ (only the decoding shader is). Spec section 3 fixes the layout: each
column of the W x 4 texture stores one rigid transform, texel row i holding
the xyz of matrix column i (rotation columns r0, r1, r2, then translation t)
in its RGB channels. -/
def encodeColumn (M : Mat4) : ℕ → Vec3
  | 0 => M.c0.rgb
  | 1 => M.c1.rgb
  | 2 => M.c2.rgb
  | 3 => M.c3.rgb
  | _ + 4 => ⟨0, 0, 0⟩

/-- The car_pose matrix decoded by the point vertex shader: sample the W x 4
transformation texture at the column selected by trans_index and at the four
fixed row centers, then rebuild the mat4 (common.h lines 183-192). -/
def carPose (w : ℕ) (tex : ℕ → ℕ → Vec3) (trans_index : ℚ) : Mat4 :=
  decodeColumn (tex (colIdx w trans_index))

/-- The local_point of the point vertex shader, common.h lines 174-176:
model * vec4(xyz * range + offset, 1.0) if range > 0, else vec4(0, 0, 0, 1). -/
def localPoint (model : Mat4) (xyz offset : Vec3) (range : ℚ) : Vec4 :=
  if 0 < range then model.mulVec (vec4 ((xyz.smul range).add offset) 1)
  else ⟨0, 0, 0, 1⟩

/-- Outputs of the point vertex shader. -/
structure PointVertexOut where
  gl_Position : Vec4
  key : Vec4
  mask : Vec4
deriving DecidableEq

/-- The point vertex shader main (common.h lines 173-197): decode car_pose
from the transformation texture, build local_point, set gl_Position to
proj_view * car_pose * local_point, and pass vkey and vmask through. -/
def pointVertex (w : ℕ) (tex : ℕ → ℕ → Vec3) (model proj_view : Mat4)
    (xyz offset : Vec3) (range trans_index : ℚ) (vkey vmask : Vec4) :
    PointVertexOut :=
  { gl_Position :=
      proj_view.mulVec ((carPose w tex trans_index).mulVec
        (localPoint model xyz offset range)),
    key := vkey,
    mask := vmask }

/-! ## Fragment shaders -/

/-- The resolved base color c of the point fragment shader, common.h line 209:
the palette lookup at key.r when mono is set, otherwise key.rgb directly.
A palette texture is modelled as the function from the lookup coordinate to
the RGB texel it returns. -/
def resolvedPointColor (mono : Bool) (palette : ℚ → Vec3) (key : Vec4) : Vec3 :=
  if mono then palette key.x else key.rgb

/-- The point fragment shader main, common.h lines 206-215: resolve the base
color, then composite the mask over it with the over operator and divide the
rgb accumulator by the resulting alpha. -/
def pointFragment (mono : Bool) (palette : ℚ → Vec3) (key mask : Vec4) : Vec4 :=
  let c := resolvedPointColor mono palette key
  let color_a := mask.w + key.w * (1 - mask.w)
  let color_rgb := (mask.rgb.smul mask.w).add ((c.smul key.w).smul (1 - mask.w))
  vec4 (color_rgb.divQ color_a) color_a

/-- The identity palette of spec section 8: a palette texture mapping every
lookup coordinate x to the color x (broadcast to the three channels). -/
def idPalette : ℚ → Vec3 :=
  fun x => ⟨x, x, x⟩

/-- The img_color of the image fragment shader, common.h lines 299-300:
when mono is set, either the palette lookup at itex.r (use_palette) or the
raw intensity itex.r broadcast to all three channels; otherwise itex.rgb. -/
def imgColor (mono use_palette : Bool) (palette : ℚ → Vec3) (itex : Vec4) :
    Vec3 :=
  let key_color := if use_palette then palette itex.x
                   else (⟨itex.x, itex.x, itex.x⟩ : Vec3)
  if mono then key_color else itex.rgb

/-- The image fragment shader main, common.h lines 296-303. Note that the
rgb accumulator multiplies img_color only by (1 - m.a), with no itex.a
factor, unlike the point path. -/
def imageFragment (mono use_palette : Bool) (palette : ℚ → Vec3)
    (m itex : Vec4) : Vec4 :=
  let img_color := imgColor mono use_palette palette itex
  let color_a := m.w + itex.w * (1 - m.w)
  vec4 (((m.rgb.smul m.w).add (img_color.smul (1 - m.w))).divQ color_a) color_a

/-! ## Ring shaders -/

/-- Outputs of the ring vertex shader. -/
structure RingVertexOut where
  gl_Position : Vec4
  ring_xy : Vec2
deriving DecidableEq

/-- The ring vertex shader main, common.h lines 222-226: project ring_xyz,
then overwrite the clip-space z with the clip-space w, and pass the xy of
the input through. -/
def ringVertex (proj_view : Mat4) (ring_xyz : Vec3) : RingVertexOut :=
  let p := proj_view.mulVec (vec4 ring_xyz 1)
  { gl_Position := ⟨p.x, p.y, p.w, p.w⟩,
    ring_xy := ⟨ring_xyz.x, ring_xyz.y⟩ }

/-- GLSL round: nearest integer. Halfway cases are implementation-chosen in
GLSL; this model rounds halves up, one of the permitted choices. -/
def glRound (x : ℚ) : ℚ :=
  (round x : ℤ)

/-- GLSL clamp(x, lo, hi) = min(max(x, lo), hi). -/
def clampQ (x lo hi : ℚ) : ℚ :=
  min (max x lo) hi

/-- The lineWeight computed by the ring fragment shader, common.h lines
234-255. The shader derives radius as length(ring_xy) and len as the length
of the screen-space gradient (dFdx(radius), dFdy(radius)); both are scalar
inputs of the per-fragment computation and are taken as parameters here. -/
def ringLineWeight (ring_range ring_thickness radius len : ℚ) : ℚ :=
  let signedDistance := radius - glRound (radius / ring_range) * ring_range
  let rangeFromLine := |signedDistance / len|
  let lineWeight := clampQ (ring_thickness - rangeFromLine) 0 1
  if 1000 < radius ∨ radius < ring_range * 0.1 then 0 else lineWeight

/-- The ring fragment shader color, common.h line 255:
vec4(vec3(0.15) * lineWeight, 1.0). -/
def ringFragment (ring_range ring_thickness radius len : ℚ) : Vec4 :=
  vec4 ((⟨0.15, 0.15, 0.15⟩ : Vec3).smul
    (ringLineWeight ring_range ring_thickness radius len)) 1

/-! ## Host-side helpers as GL call traces

load_shaders and load_texture only issue OpenGL calls; they are embedded as
pure functions that return their result together with the ordered list of GL
calls they perform. The values the driver hands back (object ids, statuses,
log lengths, log text) are an input environment, so the theorems quantify
over every driver behavior, including failing compiles and links. -/

/-- The two shader stage kinds used by load_shaders. -/
inductive ShaderKind where
  | vertex
  | fragment
deriving DecidableEq

/-- One OpenGL call issued by load_shaders. -/
inductive GLCall where
  | createShader (kind : ShaderKind) (id : ℕ)
  | shaderSource (id : ℕ) (src : String)
  | compileShader (id : ℕ)
  | getCompileStatus (id : ℕ)
  | getShaderLogLength (id : ℕ)
  | getShaderLog (id : ℕ)
  | printLog (text : String)
  | createProgram (id : ℕ)
  | attachShader (pid sid : ℕ)
  | linkProgram (pid : ℕ)
  | getLinkStatus (pid : ℕ)
  | getProgramLogLength (pid : ℕ)
  | getProgramLog (pid : ℕ)
  | detachShader (pid sid : ℕ)
  | deleteShader (id : ℕ)
deriving DecidableEq

/-- The driver-supplied values load_shaders reads back: the ids returned by
glCreateShader and glCreateProgram, the compile and link statuses, and the
info log lengths and texts. -/
structure GLEnv where
  vertexShaderId : ℕ
  fragShaderId : ℕ
  programId : ℕ
  vertexCompileOk : Bool
  fragCompileOk : Bool
  linkOk : Bool
  vertexLogLen : ℤ
  fragLogLen : ℤ
  programLogLen : ℤ
  vertexLog : String
  fragLog : String
  programLog : String

/-- load_shaders, common.h lines 27-92: create both stage objects, compile
each source, print a stage log whenever its length is positive, create the
program, attach, link, print the program log whenever its length is positive,
then detach and delete both stage objects and return the program id. The
compile and link statuses are read into a local but never branched on. -/
def load_shaders (env : GLEnv) (vertex_shader_code fragment_shader_code :
    String) : ℕ × List GLCall :=
  let vprint := if 0 < env.vertexLogLen then
      [GLCall.getShaderLog env.vertexShaderId, GLCall.printLog env.vertexLog]
    else []
  let fprint := if 0 < env.fragLogLen then
      [GLCall.getShaderLog env.fragShaderId, GLCall.printLog env.fragLog]
    else []
  let pprint := if 0 < env.programLogLen then
      [GLCall.getProgramLog env.programId, GLCall.printLog env.programLog]
    else []
  (env.programId,
   [GLCall.createShader ShaderKind.vertex env.vertexShaderId,
    GLCall.createShader ShaderKind.fragment env.fragShaderId,
    GLCall.shaderSource env.vertexShaderId vertex_shader_code,
    GLCall.compileShader env.vertexShaderId,
    GLCall.getCompileStatus env.vertexShaderId,
    GLCall.getShaderLogLength env.vertexShaderId]
   ++ vprint
   ++ [GLCall.shaderSource env.fragShaderId fragment_shader_code,
       GLCall.compileShader env.fragShaderId,
       GLCall.getCompileStatus env.fragShaderId,
       GLCall.getShaderLogLength env.fragShaderId]
   ++ fprint
   ++ [GLCall.createProgram env.programId,
       GLCall.attachShader env.programId env.vertexShaderId,
       GLCall.attachShader env.programId env.fragShaderId,
       GLCall.linkProgram env.programId,
       GLCall.getLinkStatus env.programId,
       GLCall.getProgramLogLength env.programId]
   ++ pprint
   ++ [GLCall.detachShader env.programId env.vertexShaderId,
       GLCall.detachShader env.programId env.fragShaderId,
       GLCall.deleteShader env.vertexShaderId,
       GLCall.deleteShader env.fragShaderId])

/-- GL enumeration constants used by load_texture, by their GL values. -/
def GL_TEXTURE_2D : ℕ := 0x0DE1

def GL_TEXTURE_MAX_LEVEL : ℕ := 0x813D

def GL_TEXTURE_BASE_LEVEL : ℕ := 0x813C

def GL_TEXTURE_MAG_FILTER : ℕ := 0x2800

def GL_TEXTURE_MIN_FILTER : ℕ := 0x2801

def GL_TEXTURE_WRAP_S : ℕ := 0x2802

def GL_TEXTURE_WRAP_T : ℕ := 0x2803

def GL_NEAREST : ℕ := 0x2600

def GL_CLAMP_TO_EDGE : ℕ := 0x812F

/-- One OpenGL call issued by load_texture. The dataRef of texImage2D stands
for the host array pointer. -/
inductive TexCall where
  | bindTexture (target id : ℕ)
  | texParameteri (target pname value : ℕ)
  | texImage2D (target level internalFormat width height border fmt eltType
      dataRef : ℕ)
deriving DecidableEq

/-- Whether a call is a glTexParameteri sampling-parameter call. -/
def TexCall.isParam : TexCall → Bool
  | TexCall.texParameteri _ _ _ => true
  | _ => false

/-- load_texture, common.h lines 111-130: bind the texture, set the six
fixed sampling parameters, and upload the array as mip level 0. -/
def load_texture (dataRef width height texture_id internal_format fmt
    eltType : ℕ) : List TexCall :=
  [TexCall.bindTexture GL_TEXTURE_2D texture_id,
   TexCall.texParameteri GL_TEXTURE_2D GL_TEXTURE_MAX_LEVEL 0,
   TexCall.texParameteri GL_TEXTURE_2D GL_TEXTURE_BASE_LEVEL 0,
   TexCall.texParameteri GL_TEXTURE_2D GL_TEXTURE_MAG_FILTER GL_NEAREST,
   TexCall.texParameteri GL_TEXTURE_2D GL_TEXTURE_MIN_FILTER GL_NEAREST,
   TexCall.texParameteri GL_TEXTURE_2D GL_TEXTURE_WRAP_S GL_CLAMP_TO_EDGE,
   TexCall.texParameteri GL_TEXTURE_2D GL_TEXTURE_WRAP_T GL_CLAMP_TO_EDGE,
   TexCall.texImage2D GL_TEXTURE_2D 0 internal_format width height 0 fmt
     eltType dataRef]

/-! ## Helper lemmas -/

theorem rowIdx_r0 : rowIdx 0.125 = 0 := by norm_num [rowIdx]

theorem rowIdx_r1 : rowIdx 0.375 = 1 := by norm_num [rowIdx]

theorem rowIdx_r2 : rowIdx 0.625 = 2 := by norm_num [rowIdx, Int.toNat]

theorem rowIdx_r3 : rowIdx 0.875 = 3 := by norm_num [rowIdx]

theorem Mat4.mul_mulVec (A B : Mat4) (v : Vec4) :
    (A.mul B).mulVec v = A.mulVec (B.mulVec v) := by
  obtain ⟨⟨a00, a01, a02, a03⟩, ⟨a10, a11, a12, a13⟩,
          ⟨a20, a21, a22, a23⟩, ⟨a30, a31, a32, a33⟩⟩ := A
  obtain ⟨⟨b00, b01, b02, b03⟩, ⟨b10, b11, b12, b13⟩,
          ⟨b20, b21, b22, b23⟩, ⟨b30, b31, b32, b33⟩⟩ := B
  obtain ⟨v0, v1, v2, v3⟩ := v
  simp only [Mat4.mul, Mat4.mulVec, Vec4.mk.injEq]
  refine ⟨by ring, by ring, by ring, by ring⟩

theorem Vec3.divQ_zero (v : Vec3) : v.divQ 0 = ⟨0, 0, 0⟩ := by
  simp [Vec3.divQ]

/-! ## Claim theorems -/

/-- C3 (amended): the point fragment output is the over composite of the mask
over the resolved base color c with base alpha key.a: output alpha is
mask.a + key.a * (1 - mask.a) and output rgb is
(mask.rgb * mask.a + c * key.a * (1 - mask.a)) / output_alpha; in particular
for mask.a = 0 and key.a nonzero the output equals (c, key.a) exactly, and
for mask.a = 1 it equals (mask.rgb, 1) exactly. -/
theorem point_fragment_over (mono : Bool) (palette : ℚ → Vec3)
    (key mask : Vec4) :
    (pointFragment mono palette key mask).w =
      mask.w + key.w * (1 - mask.w) ∧
    (pointFragment mono palette key mask).rgb =
      ((mask.rgb.smul mask.w).add
        (((resolvedPointColor mono palette key).smul key.w).smul
          (1 - mask.w))).divQ (mask.w + key.w * (1 - mask.w)) ∧
    (mask.w = 0 → key.w ≠ 0 →
      pointFragment mono palette key mask =
        vec4 (resolvedPointColor mono palette key) key.w) ∧
    (mask.w = 1 → pointFragment mono palette key mask = vec4 mask.rgb 1) := by
  refine ⟨rfl, rfl, ?_, ?_⟩
  · intro h0 hk
    simp only [pointFragment]
    generalize resolvedPointColor mono palette key = c
    obtain ⟨cx, cy, cz⟩ := c
    obtain ⟨mx, my, mz, mw⟩ := mask
    obtain ⟨kx, ky, kz, kw⟩ := key
    dsimp only at h0 hk ⊢
    subst h0
    simp only [Vec3.smul, Vec3.add, Vec3.divQ, Vec4.rgb, vec4, Vec4.mk.injEq]
    refine ⟨?_, ?_, ?_, by ring⟩ <;>
      · field_simp
        try ring
  · intro h1
    simp only [pointFragment]
    generalize resolvedPointColor mono palette key = c
    obtain ⟨cx, cy, cz⟩ := c
    obtain ⟨mx, my, mz, mw⟩ := mask
    obtain ⟨kx, ky, kz, kw⟩ := key
    dsimp only at h1 ⊢
    subst h1
    simp only [Vec3.smul, Vec3.add, Vec3.divQ, Vec4.rgb, vec4, Vec4.mk.injEq]
    norm_num

theorem point_fragment_over_witness :
    (⟨0, 0, 0, 0⟩ : Vec4).w = 0 ∧ ((⟨1, 0, 0, 1⟩ : Vec4).w : ℚ) ≠ 0 ∧
    pointFragment false idPalette ⟨1, 0, 0, 1⟩ ⟨0, 0, 0, 0⟩ =
      vec4 (resolvedPointColor false idPalette ⟨1, 0, 0, 1⟩)
        ((⟨1, 0, 0, 1⟩ : Vec4).w) ∧
    (⟨3, 4, 5, 1⟩ : Vec4).w = 1 ∧
    pointFragment false idPalette ⟨1, 0, 0, 1⟩ ⟨3, 4, 5, 1⟩ =
      vec4 (Vec4.rgb ⟨3, 4, 5, 1⟩) 1 :=
  ⟨rfl, by norm_num, (point_fragment_over false idPalette ⟨1, 0, 0, 1⟩
      ⟨0, 0, 0, 0⟩).2.2.1 rfl (by norm_num), rfl,
   (point_fragment_over false idPalette ⟨1, 0, 0, 1⟩ ⟨3, 4, 5, 1⟩).2.2.2 rfl⟩

/-- C3 counterexample: with mask.a = 0 and key.a = 0 the output is not
(c, key.a); for key = (1, 0, 0, 0) and a transparent mask the rgb accumulator
is divided by the zero output alpha, giving (0, 0, 0, 0) in this model (NaN
in IEEE float), not (1, 0, 0, 0). -/
theorem point_fragment_mask_zero_cex :
    pointFragment false idPalette ⟨1, 0, 0, 0⟩ ⟨0, 0, 0, 0⟩ ≠
      vec4 (resolvedPointColor false idPalette ⟨1, 0, 0, 0⟩)
        ((⟨1, 0, 0, 0⟩ : Vec4).w) := by
  intro h
  have hx := congrArg Vec4.x h
  simp only [pointFragment, resolvedPointColor, Vec3.smul, Vec3.add,
    Vec3.divQ, Vec4.rgb, vec4] at hx
  norm_num at hx

/-- C5: when both the mask alpha and the base alpha are 0, the output alpha
of the point compositor and of the image compositor is 0, and evaluation is
total: the unguarded division by the zero output alpha resolves, under the
total division of the rational model, to the black rgb the convention
allows, so the whole output is (0, 0, 0, 0) on both paths. -/
theorem compositor_alpha_zero (mono use_palette : Bool) (palette : ℚ → Vec3)
    (key mask m itex : Vec4) (hk : key.w = 0) (hm : mask.w = 0)
    (hma : m.w = 0) (hia : itex.w = 0) :
    pointFragment mono palette key mask = vec4 ⟨0, 0, 0⟩ 0 ∧
    imageFragment mono use_palette palette m itex = vec4 ⟨0, 0, 0⟩ 0 := by
  constructor
  · obtain ⟨mx, my, mz, mw⟩ := mask
    obtain ⟨kx, ky, kz, kw⟩ := key
    dsimp only at hk hm
    subst hk hm
    simp only [pointFragment, Vec3.smul, Vec3.add, Vec3.divQ, vec4, Vec4.rgb]
    norm_num
  · obtain ⟨ax, ay, az, aw⟩ := m
    obtain ⟨ix, iy, iz, iw⟩ := itex
    dsimp only at hma hia
    subst hma hia
    simp only [imageFragment, Vec3.smul, Vec3.add, vec4, Vec4.rgb]
    norm_num [Vec3.divQ_zero]

theorem compositor_alpha_zero_witness :
    (⟨1, 1, 1, 0⟩ : Vec4).w = 0 ∧ (⟨2, 2, 2, 0⟩ : Vec4).w = 0 ∧
    pointFragment false idPalette ⟨1, 1, 1, 0⟩ ⟨2, 2, 2, 0⟩ =
      vec4 ⟨0, 0, 0⟩ 0 ∧
    imageFragment false false idPalette ⟨2, 2, 2, 0⟩ ⟨1, 1, 1, 0⟩ =
      vec4 ⟨0, 0, 0⟩ 0 :=
  ⟨rfl, rfl,
   (compositor_alpha_zero false false idPalette ⟨1, 1, 1, 0⟩ ⟨2, 2, 2, 0⟩
      ⟨2, 2, 2, 0⟩ ⟨1, 1, 1, 0⟩ rfl rfl rfl rfl).1,
   (compositor_alpha_zero false false idPalette ⟨1, 1, 1, 0⟩ ⟨2, 2, 2, 0⟩
      ⟨2, 2, 2, 0⟩ ⟨1, 1, 1, 0⟩ rfl rfl rfl rfl).2⟩

/-- C9 (amended): with the identity palette and mono set, the palette lookup
path produces the same resolved base color as the direct-RGB path for every
key whose green and blue channels equal its red channel; in general the
palette path yields (key.r, key.r, key.r), so the two paths differ on
non-gray keys. -/
theorem palette_identity_gray (key : Vec4) (hg : key.y = key.x)
    (hb : key.z = key.x) :
    resolvedPointColor true idPalette key =
      resolvedPointColor false idPalette key := by
  obtain ⟨kx, ky, kz, kw⟩ := key
  dsimp only at hg hb
  subst hg hb
  rfl

theorem palette_identity_gray_witness :
    (⟨1/2, 1/2, 1/2, 1⟩ : Vec4).y = (⟨1/2, 1/2, 1/2, 1⟩ : Vec4).x ∧
    resolvedPointColor true idPalette ⟨1/2, 1/2, 1/2, 1⟩ =
      resolvedPointColor false idPalette ⟨1/2, 1/2, 1/2, 1⟩ :=
  ⟨rfl, palette_identity_gray ⟨1/2, 1/2, 1/2, 1⟩ rfl rfl⟩

/-- C9 counterexample: with the identity palette and the non-gray key
(1, 0, 0, 1), the palette path resolves to (1, 1, 1) while the direct-RGB
path resolves to (1, 0, 0), so the two paths do not agree for every key. -/
theorem palette_identity_cex :
    resolvedPointColor true idPalette ⟨1, 0, 0, 1⟩ ≠
      resolvedPointColor false idPalette ⟨1, 0, 0, 1⟩ := by
  intro h
  have hy := congrArg Vec3.y h
  simp only [resolvedPointColor, idPalette, Vec4.rgb] at hy
  norm_num at hy

/-- C1: for every rigid 4x4 transform M (bottom row 0, 0, 0, 1) encoded as
one column of the W x 4 pose texture, sampling that column at the four fixed
row centers 0.125, 0.375, 0.625, 0.875 and reassembling the mat4 with
rotation columns r0.xyz, r1.xyz, r2.xyz, translation t.xyz and bottom row
0, 0, 0, 1 reconstructs M exactly, with no normalization or inversion. -/
theorem pose_roundtrip (M : Mat4) (h0 : M.c0.w = 0) (h1 : M.c1.w = 0)
    (h2 : M.c2.w = 0) (h3 : M.c3.w = 1) :
    decodeColumn (encodeColumn M) = M := by
  obtain ⟨⟨a, b, c, d⟩, ⟨e, f, g, k⟩, ⟨i, j, l, m⟩, ⟨n, o, p, q⟩⟩ := M
  dsimp only at h0 h1 h2 h3
  subst h0 h1 h2 h3
  simp [decodeColumn, encodeColumn, decodePose, Vec4.rgb,
    rowIdx_r0, rowIdx_r1, rowIdx_r2, rowIdx_r3]

theorem pose_roundtrip_witness :
    (Mat4.c0 ⟨⟨1, 0, 0, 0⟩, ⟨0, 1, 0, 0⟩, ⟨0, 0, 1, 0⟩, ⟨4, 5, 6, 1⟩⟩).w = 0 ∧
    (Mat4.c3 ⟨⟨1, 0, 0, 0⟩, ⟨0, 1, 0, 0⟩, ⟨0, 0, 1, 0⟩, ⟨4, 5, 6, 1⟩⟩).w = 1 ∧
    decodeColumn (encodeColumn
        ⟨⟨1, 0, 0, 0⟩, ⟨0, 1, 0, 0⟩, ⟨0, 0, 1, 0⟩, ⟨4, 5, 6, 1⟩⟩) =
      ⟨⟨1, 0, 0, 0⟩, ⟨0, 1, 0, 0⟩, ⟨0, 0, 1, 0⟩, ⟨4, 5, 6, 1⟩⟩ :=
  ⟨rfl, rfl, pose_roundtrip _ rfl rfl rfl rfl⟩

/-- C10 (implicit): after the ring vertex stage, the clip-space z equals the
clip-space w, so every ring vertex lies on the far clip plane. -/
theorem ring_vertex_far_plane (proj_view : Mat4) (ring_xyz : Vec3) :
    (ringVertex proj_view ring_xyz).gl_Position.z =
      (ringVertex proj_view ring_xyz).gl_Position.w := rfl

/-- C2 (amended): when range is positive the clip position is
proj_view * car_pose * model * vec4(xyz * range + offset, 1); when range is
not positive the local point is the constant vec4(0, 0, 0, 1) — the origin
with the model matrix not applied — regardless of xyz and offset. -/
theorem point_vertex_transform (w : ℕ) (tex : ℕ → ℕ → Vec3)
    (model proj_view : Mat4) (xyz offset : Vec3) (range trans_index : ℚ)
    (vkey vmask : Vec4) :
    (0 < range →
      (pointVertex w tex model proj_view xyz offset range trans_index vkey
          vmask).gl_Position =
        ((proj_view.mul (carPose w tex trans_index)).mul model).mulVec
          (vec4 ((xyz.smul range).add offset) 1)) ∧
    (range ≤ 0 → localPoint model xyz offset range = ⟨0, 0, 0, 1⟩) := by
  constructor
  · intro h
    simp only [pointVertex, localPoint, if_pos h, Mat4.mul_mulVec]
  · intro h
    simp only [localPoint, if_neg (not_lt.mpr h)]

theorem point_vertex_transform_witness :
    (0 : ℚ) < 1 ∧ (0 : ℚ) ≤ 0 ∧
    (pointVertex 1 (fun _ _ => ⟨0, 0, 0⟩) Mat4.identity Mat4.identity
        ⟨1, 2, 3⟩ ⟨0, 0, 0⟩ 1 0 ⟨0, 0, 0, 0⟩ ⟨0, 0, 0, 0⟩).gl_Position =
      ((Mat4.identity.mul (carPose 1 (fun _ _ => ⟨0, 0, 0⟩) 0)).mul
          Mat4.identity).mulVec
        (vec4 ((Vec3.smul ⟨1, 2, 3⟩ 1).add ⟨0, 0, 0⟩) 1) ∧
    localPoint Mat4.identity ⟨5, 6, 7⟩ ⟨1, 1, 1⟩ 0 = ⟨0, 0, 0, 1⟩ :=
  ⟨by norm_num, le_refl 0,
   (point_vertex_transform 1 (fun _ _ => ⟨0, 0, 0⟩) Mat4.identity
      Mat4.identity ⟨1, 2, 3⟩ ⟨0, 0, 0⟩ 1 0 ⟨0, 0, 0, 0⟩ ⟨0, 0, 0, 0⟩).1
     (by norm_num),
   (point_vertex_transform 1 (fun _ _ => ⟨0, 0, 0⟩) Mat4.identity
      Mat4.identity ⟨5, 6, 7⟩ ⟨1, 1, 1⟩ 0 0 ⟨0, 0, 0, 0⟩ ⟨0, 0, 0, 0⟩).2
     (le_refl 0)⟩

/-- C2 counterexample: with a model matrix that translates by (1, 0, 0) and
range 0, the local point computed by the shader is vec4(0, 0, 0, 1), not
model * vec4(0, 0, 0, 1) = vec4(1, 0, 0, 1) as the claim states. -/
theorem point_vertex_origin_cex :
    localPoint ⟨⟨1, 0, 0, 0⟩, ⟨0, 1, 0, 0⟩, ⟨0, 0, 1, 0⟩, ⟨1, 0, 0, 1⟩⟩
        ⟨0, 0, 0⟩ ⟨0, 0, 0⟩ 0 ≠
      Mat4.mulVec ⟨⟨1, 0, 0, 0⟩, ⟨0, 1, 0, 0⟩, ⟨0, 0, 1, 0⟩, ⟨1, 0, 0, 1⟩⟩
        ⟨0, 0, 0, 1⟩ := by
  simp only [localPoint, Mat4.mulVec, lt_self_iff_false, if_false]
  intro h
  have := congrArg Vec4.x h
  norm_num at this

/-- C4 (amended): the image fragment stage composites the mask over the
image with the same output-alpha law as the point path, but its rgb
accumulator omits the base-alpha factor:
output rgb = (m.rgb * m.a + img_color * (1 - m.a)) / output_alpha with
base color img_color; consequently for a fully transparent mask with
mono = false the output color is itex.rgb / itex.a, which equals itex.rgb
exactly when itex.a = 1. -/
theorem image_fragment_composite (mono use_palette : Bool)
    (palette : ℚ → Vec3) (m itex : Vec4) :
    (imageFragment mono use_palette palette m itex).w =
      m.w + itex.w * (1 - m.w) ∧
    (imageFragment mono use_palette palette m itex).rgb =
      ((m.rgb.smul m.w).add
        ((imgColor mono use_palette palette itex).smul (1 - m.w))).divQ
        (m.w + itex.w * (1 - m.w)) ∧
    (mono = false → m.w = 0 → itex.w = 1 →
      imageFragment mono use_palette palette m itex =
        vec4 itex.rgb itex.w) := by
  refine ⟨rfl, rfl, ?_⟩
  intro hmono h0 h1
  subst hmono
  obtain ⟨ax, ay, az, aw⟩ := m
  obtain ⟨ix, iy, iz, iw⟩ := itex
  dsimp only at h0 h1
  subst h0 h1
  simp only [imageFragment, imgColor, Vec3.smul, Vec3.add, Vec3.divQ,
    Vec4.rgb, vec4, Vec4.mk.injEq, if_false]
  norm_num

theorem image_fragment_composite_witness :
    (⟨0, 0, 0, 0⟩ : Vec4).w = 0 ∧ (⟨1/3, 2/3, 1, 1⟩ : Vec4).w = 1 ∧
    imageFragment false false idPalette ⟨0, 0, 0, 0⟩ ⟨1/3, 2/3, 1, 1⟩ =
      vec4 (Vec4.rgb ⟨1/3, 2/3, 1, 1⟩) ((⟨1/3, 2/3, 1, 1⟩ : Vec4).w) :=
  ⟨rfl, rfl,
   (image_fragment_composite false false idPalette ⟨0, 0, 0, 0⟩
      ⟨1/3, 2/3, 1, 1⟩).2.2 rfl rfl rfl⟩

/-- C4 counterexample: the image path is not the identical over law of the
point path. With use_palette = false, mono = false, a fully transparent mask
and itex = (1/2, 1/2, 1/2, 1/2), the output is ((1, 1, 1), 1/2) because the
rgb accumulator is not weighted by the base alpha, while the claim requires
(itex.rgb, itex.a) = ((1/2, 1/2, 1/2), 1/2). -/
theorem image_fragment_cex :
    imageFragment false false idPalette ⟨0, 0, 0, 0⟩ ⟨1/2, 1/2, 1/2, 1/2⟩ ≠
      vec4 (Vec4.rgb ⟨1/2, 1/2, 1/2, 1/2⟩)
        ((⟨1/2, 1/2, 1/2, 1/2⟩ : Vec4).w) := by
  intro h
  have hx := congrArg Vec4.x h
  simp only [imageFragment, imgColor, Vec3.smul, Vec3.add, Vec3.divQ,
    Vec4.rgb, vec4, if_false] at hx
  norm_num at hx

/-- C6: for every driver behavior and every pair of source strings,
load_shaders returns exactly the program handle created by glCreateProgram —
no error value and no exception, whatever the compile and link statuses and
log lengths are — and its call trace ends by detaching and deleting both
transient stage objects after the link call. -/
theorem load_shaders_spec (env : GLEnv) (vsrc fsrc : String) :
    (load_shaders env vsrc fsrc).1 = env.programId ∧
    ∃ pre,
      (load_shaders env vsrc fsrc).2 =
        pre ++ [GLCall.detachShader env.programId env.vertexShaderId,
                GLCall.detachShader env.programId env.fragShaderId,
                GLCall.deleteShader env.vertexShaderId,
                GLCall.deleteShader env.fragShaderId] ∧
      GLCall.linkProgram env.programId ∈ pre := by
  refine ⟨rfl,
    ⟨[GLCall.createShader ShaderKind.vertex env.vertexShaderId,
      GLCall.createShader ShaderKind.fragment env.fragShaderId,
      GLCall.shaderSource env.vertexShaderId vsrc,
      GLCall.compileShader env.vertexShaderId,
      GLCall.getCompileStatus env.vertexShaderId,
      GLCall.getShaderLogLength env.vertexShaderId]
     ++ (if 0 < env.vertexLogLen then
          [GLCall.getShaderLog env.vertexShaderId,
           GLCall.printLog env.vertexLog] else [])
     ++ [GLCall.shaderSource env.fragShaderId fsrc,
         GLCall.compileShader env.fragShaderId,
         GLCall.getCompileStatus env.fragShaderId,
         GLCall.getShaderLogLength env.fragShaderId]
     ++ (if 0 < env.fragLogLen then
          [GLCall.getShaderLog env.fragShaderId,
           GLCall.printLog env.fragLog] else [])
     ++ [GLCall.createProgram env.programId,
         GLCall.attachShader env.programId env.vertexShaderId,
         GLCall.attachShader env.programId env.fragShaderId,
         GLCall.linkProgram env.programId,
         GLCall.getLinkStatus env.programId,
         GLCall.getProgramLogLength env.programId]
     ++ (if 0 < env.programLogLen then
          [GLCall.getProgramLog env.programId,
           GLCall.printLog env.programLog] else []), ?_, ?_⟩⟩
  · simp [load_shaders, List.append_assoc]
  · simp [List.mem_append]

/-- C7: every call of load_texture, whatever its array, dimensions, texture
handle and format arguments, issues exactly the six fixed sampling-parameter
calls — mip base and max level 0, nearest magnification and minification
filters, clamp-to-edge on both wrap axes — and uploads the array as mip
level 0; none of these parameters depends on the arguments. -/
theorem load_texture_fixed_params (dataRef width height texture_id
    internal_format fmt eltType : ℕ) :
    (load_texture dataRef width height texture_id internal_format fmt
        eltType).filter TexCall.isParam =
      [TexCall.texParameteri GL_TEXTURE_2D GL_TEXTURE_MAX_LEVEL 0,
       TexCall.texParameteri GL_TEXTURE_2D GL_TEXTURE_BASE_LEVEL 0,
       TexCall.texParameteri GL_TEXTURE_2D GL_TEXTURE_MAG_FILTER GL_NEAREST,
       TexCall.texParameteri GL_TEXTURE_2D GL_TEXTURE_MIN_FILTER GL_NEAREST,
       TexCall.texParameteri GL_TEXTURE_2D GL_TEXTURE_WRAP_S
         GL_CLAMP_TO_EDGE,
       TexCall.texParameteri GL_TEXTURE_2D GL_TEXTURE_WRAP_T
         GL_CLAMP_TO_EDGE] ∧
    TexCall.texImage2D GL_TEXTURE_2D 0 internal_format width height 0 fmt
        eltType dataRef ∈
      load_texture dataRef width height texture_id internal_format fmt
        eltType := by
  refine ⟨rfl, ?_⟩
  simp [load_texture]

/-- C8 (amended): with ring_range = 5 and ring_thickness = 0.1, a fragment
at radius exactly 5.0 gets line weight 0.1 — the maximum any fragment can
get, since every line weight is at most the thickness — and a fragment at
radius 2.5 gets weight 0 for every screen-space gradient magnitude len with
0 < len ≤ 25; for larger gradient magnitudes the weight at radius 2.5 is
positive, so the gradient bound is necessary. -/
theorem ring_scenario (len : ℚ) (hpos : 0 < len) (hle : len ≤ 25) :
    ringLineWeight 5 0.1 (5 / 2) len = 0 ∧
    ringLineWeight 5 0.1 5 len = 0.1 ∧
    ∀ radius l, ringLineWeight 5 0.1 radius l ≤ 0.1 := by
  refine ⟨?_, ?_, ?_⟩
  · have h1 : glRound ((5 : ℚ) / 2 / 5) = 1 := by
      norm_num [glRound, round_eq]
    have habs : |((5 : ℚ) / 2 - glRound ((5 : ℚ) / 2 / 5) * 5) / len| =
        (5 / 2) / len := by
      rw [h1, abs_div, abs_of_pos hpos]
      norm_num
      rw [abs_of_nonneg (by norm_num : (0 : ℚ) ≤ 5 / 2)]
    have hx : (0.1 : ℚ) - (5 / 2) / len ≤ 0 := by
      have h10 : (1 : ℚ) / 10 ≤ (5 / 2) / len := by
        rw [le_div_iff₀ hpos]
        linarith
      norm_num
      linarith
    simp only [ringLineWeight, habs]
    rw [if_neg (by norm_num), clampQ, max_eq_right hx]
    norm_num
  · have h1 : glRound ((5 : ℚ) / 5) = 1 := by
      norm_num [glRound, round_eq]
    simp only [ringLineWeight, h1]
    rw [if_neg (by norm_num)]
    norm_num [clampQ]
  · intro radius l
    simp only [ringLineWeight]
    split
    · norm_num
    · have h := abs_nonneg ((radius - glRound (radius / 5) * 5) / l)
      simp only [clampQ]
      refine le_trans (min_le_left _ _) (max_le (by linarith) (by norm_num))

theorem ring_scenario_witness :
    (0 : ℚ) < 10 ∧ (10 : ℚ) ≤ 25 ∧
    ringLineWeight 5 0.1 (5 / 2) 10 = 0 ∧
    ringLineWeight 5 0.1 5 10 = 0.1 :=
  ⟨by norm_num, by norm_num,
   (ring_scenario 10 (by norm_num) (by norm_num)).1,
   (ring_scenario 10 (by norm_num) (by norm_num)).2.1⟩

/-- C8 counterexample: a fragment at radius 2.5 does not always get weight 0.
With ring_range = 5, ring_thickness = 0.1 and a screen-space gradient
magnitude of 100 meters per pixel, the fragment at radius 2.5 gets line
weight 3/40, which is nonzero. -/
theorem ring_gradient_cex : ringLineWeight 5 0.1 (5 / 2) 100 ≠ 0 := by
  have h1 : glRound ((5 : ℚ) / 2 / 5) = 1 := by
    norm_num [glRound, round_eq]
  have habs : |((5 : ℚ) / 2 - glRound ((5 : ℚ) / 2 / 5) * 5) / 100| =
      1 / 40 := by
    rw [h1]
    rw [show ((5 : ℚ) / 2 - 1 * 5) / 100 = -(1 / 40) by norm_num, abs_neg,
      abs_of_nonneg (by norm_num)]
  simp only [ringLineWeight, habs]
  rw [if_neg (by norm_num)]
  norm_num [clampQ]

end OusterViz
